import Mathlib

/-!
Verification of the ai-video-summariser frontend against its design notes.

The definitions below are a shallow embedding of the JavaScript/React
sources: `frontend/src/api.js` (HTTP client wrapper), `App.jsx`
(application root / orchestrator state), `UploadBox.jsx` (drag-and-drop
upload surface) and `SummaryCard.jsx` (summary display).  JavaScript
truthiness on the string values involved is modelled explicitly
(`none` = absent/undefined, `some ""` = present but falsy).
-/

namespace AiVideoSummariser

/-- JS string truthiness over possibly-absent values: `undefined`/`null`
and the empty string are falsy, every other string is truthy. -/
def truthy : Option String → Bool
  | none => false
  | some s => s ≠ ""

/-- A browser `File` object, reduced to the fields the frontend reads:
its name and its declared MIME `type`. -/
structure JsFile where
  name : String
  type : String
  deriving DecidableEq, Repr

/-! ## UploadBox.jsx -/

/-- Outcome of one interaction with the upload surface: either the
`onFileSelect` callback is invoked with a file, or a visible alert is
raised, or nothing happens. -/
inductive DropOutcome where
  | selected (f : JsFile)
  | alerted (msg : String)
  | ignored
  deriving DecidableEq, Repr

/-- Embedding of `file.type.startsWith('video/')` from UploadBox.jsx. -/
def isVideoType (f : JsFile) : Bool :=
  "video/".toList.isPrefixOf f.type.toList

/-- `handleDrop` from UploadBox.jsx: when not disabled and the drop
carries at least one file, accept the first file when its MIME type
starts with `video/`, otherwise alert; never touch the callback for a
non-video file. -/
def handleDrop (disabled : Bool) (files : List JsFile) : DropOutcome :=
  if disabled then .ignored
  else
    match files with
    | [] => .ignored
    | f :: _ =>
      if isVideoType f then .selected f
      else .alerted "Please upload a video file"

/-- `handleFileInput` from UploadBox.jsx: `e.target.files?.[0]` is taken
and, when present, passed straight to `onFileSelect` — no MIME check. -/
def handleFileInput (files : List JsFile) : DropOutcome :=
  match files with
  | [] => .ignored
  | f :: _ => .selected f

/-! ## api.js: base-address resolution (two divergent copies) -/

/-- `API_BASE` from `src/frontend/src/api.js`:
`import.meta.env.VITE_API_URL || (import.meta.env.PROD ? '' : 'http://localhost:5000')`.
`isDev` models `import.meta.env.DEV` (so `PROD` is its negation). -/
def apiBaseSimple (isDev : Bool) (viteApiUrl : Option String) : String :=
  if truthy viteApiUrl then viteApiUrl.getD ""
  else if !isDev then "" else "http://localhost:5000"

/-- `API_BASE` from the other copy of the client wrapper:
`isDevelopment ? (import.meta.env.VITE_API_URL || 'http://localhost:5000') : ''`. -/
def apiBaseVerbose (isDev : Bool) (viteApiUrl : Option String) : String :=
  if isDev then
    (if truthy viteApiUrl then viteApiUrl.getD "" else "http://localhost:5000")
  else ""

/-! ## api.js: upload progress handler -/

/-- An axios progress event, reduced to its byte counters.  `total` may be
absent (unknown content length). -/
structure ProgressEvent where
  loaded : Nat
  total : Option Nat
  deriving DecidableEq, Repr

/-- `Math.round((loaded * 100) / total)` over natural byte counters:
round-half-up of the exact rational `loaded * 100 / total`. -/
def percentCompleted (loaded total : Nat) : Nat :=
  (2 * (loaded * 100) + total) / (2 * total)

/-- JS truthiness of the numeric `total` field: absent and `0` are falsy. -/
def truthyNat : Option Nat → Bool
  | none => false
  | some t => t ≠ 0

/-- The `onUploadProgress` handler in `uploadVideo`: the percentage is
computed and handed to the callback only when a callback was supplied and
`progressEvent.total` is truthy (present and non-zero).  The result is
the value passed to the callback, `none` when the callback is not
invoked. -/
def onUploadProgressHandler (hasCallback : Bool) (e : ProgressEvent) : Option Nat :=
  if hasCallback && truthyNat e.total then
    some (percentCompleted e.loaded (e.total.getD 0))
  else none

/-! ## App.jsx: orchestrator state and handlers -/

/-- The five `useState` cells of `App`.  `file`, `summary` and `error`
are nullable (`useState(null)`); `uploadProgress` starts at 0 and
`loading` at false. -/
structure AppState where
  file : Option JsFile
  uploadProgress : Nat
  loading : Bool
  summary : Option String
  error : Option String
  deriving DecidableEq, Repr

/-- The initial render state of `App`. -/
def initState : AppState :=
  { file := none, uploadProgress := 0, loading := false, summary := none, error := none }

/-- `handleFileSelect` from App.jsx: store the selected file and clear
summary, error and progress; `loading` is not touched. -/
def handleFileSelect (s : AppState) (f : JsFile) : AppState :=
  { s with file := some f, summary := none, error := none, uploadProgress := 0 }

/-- `handleReset` from App.jsx: clear file, summary, error and progress. -/
def handleReset (s : AppState) : AppState :=
  { s with file := none, summary := none, error := none, uploadProgress := 0 }

/-- The JSON body of a successful `/api/upload` response, as the
orchestrator reads it: an optional `summary` field (absent or falsy
fields modelled by `truthy`) plus the payload as a whole, rendered as
the string the UI would end up holding when `result.summary` is falsy. -/
structure UploadResult where
  summary : Option String
  payload : String
  deriving DecidableEq, Repr

/-- `result.summary || result` from App.jsx: the stored summary value is
the `summary` field when truthy, else the whole payload. -/
def resultSummary (r : UploadResult) : String :=
  if truthy r.summary then r.summary.getD "" else r.payload

/-- The JSON body of a failed `/api/upload` response:
`err.response?.data` with its optional `detail` and `error` fields. -/
structure ErrorBody where
  detail : Option String
  error : Option String
  deriving DecidableEq, Repr

/-- A rejected upload as the catch block sees it: `err.response?.data`
(absent on transport failures) and `err.message`. -/
structure UploadError where
  responseData : Option ErrorBody
  message : Option String
  deriving DecidableEq, Repr

/-- The static fallback message in App.jsx's catch block. -/
def defaultErrorMessage : String := "Failed to process video. Please try again."

/-- The catch block of `handleUpload`:
`err.response?.data?.detail || err.response?.data?.error || err.message || 'Failed to process video. Please try again.'`. -/
def deriveErrorMessage (err : UploadError) : String :=
  if truthy (err.responseData.bind ErrorBody.detail) then
    (err.responseData.bind ErrorBody.detail).getD ""
  else if truthy (err.responseData.bind ErrorBody.error) then
    (err.responseData.bind ErrorBody.error).getD ""
  else if truthy err.message then err.message.getD ""
  else defaultErrorMessage

/-- How one call to `uploadVideo` resolves: either the awaited response
body, or the caught error. -/
inductive UploadOutcome where
  | success (r : UploadResult)
  | failure (e : UploadError)

/-- The state writes at the top of `handleUpload`, after the `!file`
guard: `setLoading(true); setError(null); setSummary(null); setUploadProgress(0)`. -/
def uploadStart (s : AppState) : AppState :=
  { s with loading := true, error := none, summary := none, uploadProgress := 0 }

/-- The progress callback passed to `uploadVideo`:
`(progress) => setUploadProgress(progress)`, applied to each reported
percentage in order. -/
def applyProgressEvents (s : AppState) (events : List Nat) : AppState :=
  events.foldl (fun st p => { st with uploadProgress := p }) s

/-- `handleUpload` from App.jsx, with the asynchronous call resolved to
an explicit outcome and the progress callbacks to an explicit list of
reported percentages.  On success the summary is stored and progress
forced to 100; on failure the derived message is stored; `finally`
clears `loading`. -/
def handleUpload (s : AppState) (outcome : UploadOutcome) (events : List Nat) : AppState :=
  match s.file with
  | none => s
  | some _ =>
    let s1 := applyProgressEvents (uploadStart s) events
    let s2 :=
      match outcome with
      | .success r => { s1 with summary := some (resultSummary r), uploadProgress := 100 }
      | .failure e => { s1 with error := some (deriveErrorMessage e) }
    { s2 with loading := false }

/-- The states of `App` reachable from the initial render through its
three handlers. -/
inductive Reachable : AppState → Prop
  | init : Reachable initState
  | select (s : AppState) (f : JsFile) : Reachable s → Reachable (handleFileSelect s f)
  | upload (s : AppState) (o : UploadOutcome) (ev : List Nat) :
      Reachable s → Reachable (handleUpload s o ev)
  | reset (s : AppState) : Reachable s → Reachable (handleReset s)

/-! ## SummaryCard.jsx -/

/-- One step of `text.split('\n')` over the character list of the text. -/
def splitOnNewline : List Char → List (List Char)
  | [] => [[]]
  | c :: rest =>
    let r := splitOnNewline rest
    if c = '\n' then [] :: r
    else
      match r with
      | [] => [[c]]
      | l :: ls => (c :: l) :: ls

/-- The whitespace characters `String.prototype.trim` strips that can
occur in the summaries this UI handles. -/
def isJsWhitespace (c : Char) : Bool :=
  c = ' ' || c = '\n' || c = '\t' || c = '\r'

/-- `line.trim()`: drop whitespace from both ends. -/
def trimChars (cs : List Char) : List Char :=
  ((cs.dropWhile isJsWhitespace).reverse.dropWhile isJsWhitespace).reverse

/-- `parseSummary` from SummaryCard.jsx: falsy text gives `[]`;
otherwise split on newlines, trim each line, and keep the lines of
positive length. -/
def parseSummary (text : Option String) : List String :=
  match text with
  | none => []
  | some t =>
    if t = "" then []
    else
      (((splitOnNewline t.toList).map trimChars).filter
        (fun l => l.length > 0)).map List.asString

/-- What the card body renders: a bullet list of key points, or the raw
summary text. -/
inductive SummaryRender where
  | bullets (points : List String)
  | raw (text : Option String)
  deriving DecidableEq, Repr

/-- The body of `SummaryCard`: `keyPoints.length > 0 ?` bullet items for
each key point, in order `: ` the raw summary. -/
def summaryCardRender (summary : Option String) : SummaryRender :=
  let keyPoints := parseSummary summary
  if keyPoints.length > 0 then .bullets keyPoints else .raw summary

/-! ## Helper lemmas -/

/-- Replaying progress callbacks only touches `uploadProgress`. -/
theorem applyProgressEvents_error (s : AppState) (ev : List Nat) :
    (applyProgressEvents s ev).error = s.error := by
  induction ev generalizing s with
  | nil => rfl
  | cons p ps ih =>
    simpa [applyProgressEvents, List.foldl] using ih { s with uploadProgress := p }

/-- Replaying progress callbacks only touches `uploadProgress`. -/
theorem applyProgressEvents_summary (s : AppState) (ev : List Nat) :
    (applyProgressEvents s ev).summary = s.summary := by
  induction ev generalizing s with
  | nil => rfl
  | cons p ps ih =>
    simpa [applyProgressEvents, List.foldl] using ih { s with uploadProgress := p }

/-! ## Claim C1: non-video rejection by the upload surface -/

/-- Claim C1 as stated is false: the file-picker change handler
(`handleFileInput`) invokes `onFileSelect` for a file whose declared
media type is `text/plain`, which does not start with `video/`. -/
theorem fileInput_accepts_nonvideo :
    isVideoType { name := "notes.txt", type := "text/plain" } = false ∧
    handleFileInput [{ name := "notes.txt", type := "text/plain" }] =
      DropOutcome.selected { name := "notes.txt", type := "text/plain" } :=
  ⟨by decide, rfl⟩

/-- Claim C1 (amended): only the drop handler gates on the declared media
type — for a non-video first file it never invokes `onFileSelect` and
(when not disabled) raises the alert — while the file-picker change
handler invokes `onFileSelect` for any present file without a type
check. -/
theorem uploadSurface_video_gate (disabled : Bool) (f : JsFile) (rest : List JsFile)
    (h : isVideoType f = false) :
    (∀ g, handleDrop disabled (f :: rest) ≠ DropOutcome.selected g) ∧
    (disabled = false →
      handleDrop disabled (f :: rest) = DropOutcome.alerted "Please upload a video file") ∧
    handleFileInput (f :: rest) = DropOutcome.selected f := by
  refine ⟨?_, ?_, rfl⟩
  · intro g
    cases disabled <;> simp [handleDrop, h]
  · intro hd
    subst hd
    simp [handleDrop, h]

/-- Witness for C1 (amended) at a concrete markdown file. -/
theorem uploadSurface_video_gate_witness :
    isVideoType { name := "notes.md", type := "text/markdown" } = false ∧
    (∀ g, handleDrop false [{ name := "notes.md", type := "text/markdown" }] ≠
      DropOutcome.selected g) := by
  have h : isVideoType { name := "notes.md", type := "text/markdown" } = false := by decide
  exact ⟨h, (uploadSurface_video_gate false _ [] h).1⟩

/-! ## Claim C2: error-message precedence -/

/-- Claim C2: on a failed upload the displayed message is the first
truthy candidate among the body's `detail` field, the body's `error`
field, the transport error's message, and otherwise the static default
string. -/
theorem errorMessage_precedence (err : UploadError) :
    (truthy (err.responseData.bind ErrorBody.detail) = true →
      deriveErrorMessage err = (err.responseData.bind ErrorBody.detail).getD "") ∧
    (truthy (err.responseData.bind ErrorBody.detail) = false →
      truthy (err.responseData.bind ErrorBody.error) = true →
      deriveErrorMessage err = (err.responseData.bind ErrorBody.error).getD "") ∧
    (truthy (err.responseData.bind ErrorBody.detail) = false →
      truthy (err.responseData.bind ErrorBody.error) = false →
      truthy err.message = true →
      deriveErrorMessage err = err.message.getD "") ∧
    (truthy (err.responseData.bind ErrorBody.detail) = false →
      truthy (err.responseData.bind ErrorBody.error) = false →
      truthy err.message = false →
      deriveErrorMessage err = "Failed to process video. Please try again.") := by
  refine ⟨?_, ?_, ?_, ?_⟩ <;> intros <;> simp [deriveErrorMessage, defaultErrorMessage, *]

/-- Witness for C2 on the spec's three example error shapes. -/
theorem errorMessage_precedence_witness :
    deriveErrorMessage ⟨some ⟨some "too large", none⟩, some "net down"⟩ = "too large" ∧
    deriveErrorMessage ⟨some ⟨none, some "bad format"⟩, some "net down"⟩ = "bad format" ∧
    deriveErrorMessage ⟨none, none⟩ =
      "Failed to process video. Please try again." := by
  refine ⟨?_, ?_, ?_⟩
  · exact (errorMessage_precedence _).1 (by decide)
  · exact (errorMessage_precedence _).2.1 (by decide) (by decide)
  · exact (errorMessage_precedence _).2.2.2 (by decide) (by decide) (by decide)

/-! ## Claim C3: summary/error mutual exclusion invariant -/

/-- Claim C3: in every state reachable from the initial render through
selecting, uploading (success or failure) and resetting, at most one of
the summary and the error message is non-null. -/
theorem summary_error_exclusive (s : AppState) (h : Reachable s) :
    s.summary = none ∨ s.error = none := by
  induction h with
  | init => exact Or.inl rfl
  | select s f hr ih => exact Or.inl rfl
  | upload s o ev hr ih =>
    cases hf : s.file with
    | none => simpa [handleUpload, hf] using ih
    | some f =>
      cases o with
      | success r =>
        right
        simp [handleUpload, hf, applyProgressEvents_error, uploadStart]
      | failure e =>
        left
        simp [handleUpload, hf, applyProgressEvents_summary, uploadStart]
  | reset s hr ih => exact Or.inl rfl

/-- Witness for C3 at the initial state. -/
theorem summary_error_exclusive_witness :
    initState.summary = none ∨ initState.error = none :=
  summary_error_exclusive initState Reachable.init

/-! ## Claim C4: the two base-address computations -/

/-- Claim C4 as stated is false: with an address override configured in
deployed (non-development) mode, the simple wrapper uses the override
while the verbose wrapper resolves the empty same-origin address. -/
theorem apiBase_divergence :
    apiBaseSimple false (some "http://api.example.com") ≠
      apiBaseVerbose false (some "http://api.example.com") := by
  decide

/-- Claim C4 (amended): the two wrappers resolve the same base address in
development mode (the truthy override, else the localhost fallback) and
in deployed mode when no truthy override is configured (the empty
same-origin address); they diverge only when deployed with an override
set. -/
theorem apiBase_agree (isDev : Bool) (url : Option String)
    (h : isDev = true ∨ truthy url = false) :
    apiBaseSimple isDev url = apiBaseVerbose isDev url ∧
    (isDev = true → truthy url = true → apiBaseSimple isDev url = url.getD "") ∧
    (isDev = true → truthy url = false → apiBaseSimple isDev url = "http://localhost:5000") ∧
    (isDev = false → apiBaseVerbose isDev url = "") := by
  cases isDev <;> cases ht : truthy url <;>
    simp_all [apiBaseSimple, apiBaseVerbose]

/-- Witness for C4 (amended) in development mode with an override. -/
theorem apiBase_agree_witness :
    apiBaseSimple true (some "http://localhost:9999") =
      apiBaseVerbose true (some "http://localhost:9999") :=
  (apiBase_agree true (some "http://localhost:9999") (Or.inl rfl)).1

/-! ## Claim C5: summary display parsing -/

/-- Claim C5: the card keeps exactly the non-empty trimmed lines of the
text — rendering them as bullet items in order when at least one exists,
and the raw text otherwise — and on `"A\nB\n\nC"` the key points are
exactly `"A"`, `"B"`, `"C"`. -/
theorem summaryCard_lines (t : String) :
    (parseSummary (some t) ≠ [] →
      summaryCardRender (some t) = SummaryRender.bullets (parseSummary (some t))) ∧
    (parseSummary (some t) = [] →
      summaryCardRender (some t) = SummaryRender.raw (some t)) ∧
    (∀ l ∈ parseSummary (some t), String.length l > 0) ∧
    parseSummary (some "A\nB\n\nC") = ["A", "B", "C"] := by
  refine ⟨?_, ?_, ?_, by decide⟩
  · intro h
    simp only [summaryCardRender]
    rw [if_pos (List.length_pos.mpr h)]
  · intro h
    simp [summaryCardRender, h]
  · intro l hl
    by_cases ht : t = ""
    · simp [parseSummary, ht] at hl
    · simp only [parseSummary, if_neg ht, List.mem_map, List.mem_filter] at hl
      obtain ⟨cs, ⟨_, hlen⟩, rfl⟩ := hl
      simpa [String.length, List.asString] using hlen

/-- Witness for C5 at the spec's example text. -/
theorem summaryCard_lines_witness :
    summaryCardRender (some "A\nB\n\nC") = SummaryRender.bullets ["A", "B", "C"] := by
  have h := (summaryCard_lines "A\nB\n\nC").1 (by decide)
  have h4 := (summaryCard_lines "A\nB\n\nC").2.2.2
  rw [h4] at h
  exact h

/-! ## Claim C6: successful-upload postcondition -/

/-- Claim C6: a successful upload stores the summary (the response's
truthy `summary` field, or the whole payload when that field is absent),
forces progress to 100, and leaves the error null. -/
theorem upload_success_state (s : AppState) (r : UploadResult) (ev : List Nat)
    (h : s.file.isSome = true) :
    (handleUpload s (.success r) ev).summary = some (resultSummary r) ∧
    (handleUpload s (.success r) ev).uploadProgress = 100 ∧
    (handleUpload s (.success r) ev).error = none ∧
    (r.summary = none → resultSummary r = r.payload) ∧
    (∀ str, r.summary = some str → str ≠ "" → resultSummary r = str) := by
  obtain ⟨f, hf⟩ := Option.isSome_iff_exists.mp h
  refine ⟨?_, ?_, ?_, ?_, ?_⟩
  · simp [handleUpload, hf]
  · simp [handleUpload, hf]
  · simp [handleUpload, hf, applyProgressEvents_error, uploadStart]
  · intro hn
    simp [resultSummary, truthy, hn]
  · intro str hs hne
    simp [resultSummary, truthy, hs, hne]

/-- Witness for C6: uploading from a state holding a selected video file
with an empty response-summary field. -/
theorem upload_success_state_witness :
    (handleUpload (handleFileSelect initState ⟨"v.mp4", "video/mp4"⟩)
        (.success ⟨none, "the whole payload"⟩) [10, 60]).uploadProgress = 100 :=
  (upload_success_state (handleFileSelect initState ⟨"v.mp4", "video/mp4"⟩)
    ⟨none, "the whole payload"⟩ [10, 60] rfl).2.1

/-! ## Claim C7: progress percentage bounds and monotonicity -/

/-- Claim C7: `round(loaded * 100 / total)` is at most 100 for
`loaded ≤ total`, is monotonically non-decreasing in the loaded byte
count, and the orchestrator resets the stored progress to 0 at the start
of each upload transaction. -/
theorem progress_percent_bounds (loaded total : Nat) (hl : loaded ≤ total) (ht : 0 < total) :
    percentCompleted loaded total ≤ 100 ∧
    (∀ l1 l2, l1 ≤ l2 → percentCompleted l1 total ≤ percentCompleted l2 total) ∧
    (∀ s : AppState, (uploadStart s).uploadProgress = 0) := by
  refine ⟨?_, ?_, fun s => rfl⟩
  · have h1 : 2 * (loaded * 100) + total ≤ 201 * total := by omega
    have h2 : (201 * total) / (2 * total) = 100 :=
      Nat.div_eq_of_lt_le (by omega) (by omega)
    calc percentCompleted loaded total
        = (2 * (loaded * 100) + total) / (2 * total) := rfl
      _ ≤ (201 * total) / (2 * total) := Nat.div_le_div_right h1
      _ = 100 := h2
  · intro l1 l2 h
    exact Nat.div_le_div_right (by omega)

/-- Witness for C7 at 3 of 7 bytes loaded. -/
theorem progress_percent_bounds_witness :
    percentCompleted 3 7 ≤ 100 :=
  (progress_percent_bounds 3 7 (by decide) (by decide)).1

/-! ## Claim C8: selection frame condition -/

/-- Claim C8: selecting a file stores it and resets summary, error and
progress, leaving the loading flag unchanged. -/
theorem select_frame (s : AppState) (f : JsFile) :
    (handleFileSelect s f).file = some f ∧
    (handleFileSelect s f).summary = none ∧
    (handleFileSelect s f).error = none ∧
    (handleFileSelect s f).uploadProgress = 0 ∧
    (handleFileSelect s f).loading = s.loading :=
  ⟨rfl, rfl, rfl, rfl, rfl⟩

/-! ## Claim C9: reset postcondition -/

/-- Claim C9: from every state, reset clears the selected file, summary,
error and progress back to their initial values. -/
theorem reset_clears_state (s : AppState) :
    (handleReset s).file = none ∧
    (handleReset s).summary = none ∧
    (handleReset s).error = none ∧
    (handleReset s).uploadProgress = 0 :=
  ⟨rfl, rfl, rfl, rfl⟩

/-! ## Claim C10: progress-handler guard -/

/-- Claim C10: the progress callback fires only when a callback was
supplied and the event's total is present and non-zero — so the divisor
of the percentage computation is positive — and an unknown total never
reports progress. -/
theorem progress_callback_guard (hasCb : Bool) (e : ProgressEvent) :
    (∀ p, onUploadProgressHandler hasCb e = some p →
      hasCb = true ∧ ∃ tot, e.total = some tot ∧ 0 < tot ∧
        p = percentCompleted e.loaded tot) ∧
    (e.total = none → onUploadProgressHandler hasCb e = none) ∧
    (hasCb = false → onUploadProgressHandler hasCb e = none) := by
  refine ⟨?_, ?_, ?_⟩
  · intro p hp
    cases hasCb with
    | false => simp [onUploadProgressHandler] at hp
    | true =>
      cases htt : e.total with
      | none => simp [onUploadProgressHandler, truthyNat, htt] at hp
      | some tot =>
        rcases Nat.eq_zero_or_pos tot with h0 | hpos
        · subst h0
          simp [onUploadProgressHandler, truthyNat, htt] at hp
        · refine ⟨rfl, tot, rfl, hpos, ?_⟩
          have hne : tot ≠ 0 := Nat.pos_iff_ne_zero.mp hpos
          simp [onUploadProgressHandler, truthyNat, htt, hne] at hp
          omega
  · intro hn
    simp [onUploadProgressHandler, truthyNat, hn]
  · intro hc
    simp [onUploadProgressHandler, hc]

/-- Witness for C10: an event with unknown total reports nothing even
with a callback supplied. -/
theorem progress_callback_guard_witness :
    onUploadProgressHandler true ⟨5, none⟩ = none :=
  (progress_callback_guard true ⟨5, none⟩).2.1 rfl

end AiVideoSummariser
